import Mathlib

/-!
A verification development for the otcbot Matrix chat bot
(src/main.rs together with src/config.rs).

The embedding reifies the observable behaviour of the three handlers:

* the command grammar `otcbot_cmd` and its clap-based parsing
  (`try_get_matches_from`), embedded as `otcbotCmdParse`;
* the message router `on_room_message`, embedded as a function from the
  sender and the text body to a trace of effects plus a termination
  `Outcome` (normal return, or a Rust panic from `unwrap`/`expect`);
* the registry import action `otcbot_registry`, with the external skopeo
  process abstracted as an oracle `Executor` argument;
* the invite auto-join retry loop spawned by `on_stripped_state_member`,
  embedded as an event-trace generator `joinRetryTrace`.

Raw process output is a byte list; Rust `String::from_utf8` is embedded
as the strict decoder `utf8Decode`.
-/

namespace Otcbot

/-- One configured image mapping entry (`ImageConfig` in config.rs). -/
structure ImageConfig where
  upstream : String
  downstream : String
deriving DecidableEq, Repr

/-- The `registry.images` map of config.rs (`HashMap<String, ImageConfig>`),
as an association list with unique keys; `HashMap::get` is `List.lookup`. -/
abbrev ImageMap := List (String × ImageConfig)

/-- Result of running the external process, mirroring `std::process::Output`:
exit-status success flag plus captured stdout and stderr as raw bytes. -/
structure ProcessOutput where
  success : Bool
  stdout : List Nat
  stderr : List Nat
deriving DecidableEq, Repr

/-- The external-process boundary: maps the argument list to `some` output,
or `none` when the executable cannot be started at all (the case where
`Command::output()` returns `Err` in the source). -/
abbrev Executor := List String → Option ProcessOutput

/-- Observable side effects of the message handlers, in emission order.
`parseInvoked` marks the call of the command grammar on a token list
(`otcbot_cmd().try_get_matches_from(words)` in the source). -/
inductive Effect where
  | sendPlain (text : String)
  | sendMarkdown (text : String)
  | typing (flag : Bool)
  | runProcess (exe : String) (args : List String)
  | readReceipt
  | parseInvoked (tokens : List String)
deriving DecidableEq, Repr

/-- Normal return of a handler, versus a Rust panic (`unwrap`/`expect`)
aborting the handler at that point. -/
inductive Outcome where
  | normal
  | panicked (msg : String)
deriving DecidableEq, Repr

/-! ### UTF-8 validation (Rust `String::from_utf8`) -/

/-- Is `b` a UTF-8 continuation byte (0x80 to 0xBF)? -/
def isCont (b : Nat) : Bool := 0x80 ≤ b && b ≤ 0xBF

/-- Admissible first continuation byte of a three-byte sequence headed by
`b`, following the strict table used by Rust (excludes overlong forms and
surrogate code points). -/
def utf8Cont3Ok (b c1 : Nat) : Bool :=
  if b = 0xE0 then 0xA0 ≤ c1 && c1 ≤ 0xBF
  else if b = 0xED then 0x80 ≤ c1 && c1 ≤ 0x9F
  else isCont c1

/-- Admissible first continuation byte of a four-byte sequence headed by
`b` (excludes overlong forms and code points above 0x10FFFF). -/
def utf8Cont4Ok (b c1 : Nat) : Bool :=
  if b = 0xF0 then 0x90 ≤ c1 && c1 ≤ 0xBF
  else if b = 0xF4 then 0x80 ≤ c1 && c1 ≤ 0x8F
  else isCont c1

/-- Strict UTF-8 decoding of a byte list, mirroring Rust
`String::from_utf8`: `none` exactly on invalid UTF-8. -/
def utf8Decode : List Nat → Option (List Char)
  | [] => some []
  | b :: bs =>
    if b ≤ 0x7F then
      (utf8Decode bs).map (fun cs => Char.ofNat b :: cs)
    else if 0xC2 ≤ b && b ≤ 0xDF then
      match bs with
      | c1 :: bs1 =>
        if isCont c1 then
          (utf8Decode bs1).map (fun cs =>
            Char.ofNat ((b - 0xC0) * 64 + (c1 - 0x80)) :: cs)
        else none
      | [] => none
    else if 0xE0 ≤ b && b ≤ 0xEF then
      match bs with
      | c1 :: c2 :: bs2 =>
        if utf8Cont3Ok b c1 && isCont c2 then
          (utf8Decode bs2).map (fun cs =>
            Char.ofNat ((b - 0xE0) * 4096 + (c1 - 0x80) * 64 + (c2 - 0x80)) :: cs)
        else none
      | _ => none
    else if 0xF0 ≤ b && b ≤ 0xF4 then
      match bs with
      | c1 :: c2 :: c3 :: bs3 =>
        if utf8Cont4Ok b c1 && isCont c2 && isCont c3 then
          (utf8Decode bs3).map (fun cs =>
            Char.ofNat ((b - 0xF0) * 262144 + (c1 - 0x80) * 4096
              + (c2 - 0x80) * 64 + (c3 - 0x80)) :: cs)
        else none
      | _ => none
    else none

/-- Decode bytes to a `String` when they are valid UTF-8. -/
def utf8String (bytes : List Nat) : Option String :=
  (utf8Decode bytes).map String.mk

/-- Rust `str::split(" ")` over a character list: split on each single
space character; adjacent spaces yield empty fragments and no other
whitespace is a separator. -/
def splitSpace : List Char → List (List Char)
  | [] => [[]]
  | c :: cs =>
    if c = ' ' then [] :: splitSpace cs
    else
      match splitSpace cs with
      | [] => [[c]]
      | w :: ws => (c :: w) :: ws

/-- `msg_body.split(" ")` of the source: the body split on single space
characters. -/
def splitWords (s : String) : List String :=
  (splitSpace s.data).map String.mk

/-- Rust `str::starts_with(p)`. -/
def strStartsWith (s p : String) : Bool :=
  p.data.isPrefixOf s.data

/-! ### The command grammar (`otcbot_cmd`) and clap parsing

The source builds the grammar with clap: top level `!otcbot` with
`subcommand_required(true)` and subcommands `gm`, `party` and `registry`;
`registry` has `subcommand_required(true)`, `arg_required_else_help(true)`
and the subcommand `import` with two required positional arguments
`<IMAGE>` and `<TAG>`.  clap automatically adds a `help` subcommand at
each level that has subcommands, and `-h`/`--help` flags everywhere.
`try_get_matches_from` skips the first token (the binary name).

The embedding below instantiates the documented clap semantics at this
fixed grammar.  Rendered texts stand in for the texts clap generates from
the `about` strings of the source; the claims depend only on which text
is chosen and on non-emptiness, not on the exact wording. -/

/-- A parsed command of the bot (the `Ok` side of `try_get_matches_from`,
combined with the subcommand matches read off by the handlers). -/
inductive Command where
  | gm
  | party
  | registryImport (image tag : String)
deriving DecidableEq, Repr

/-- The clap error kinds that the grammar of `otcbot_cmd` can produce.
The router only distinguishes `displayHelp` from everything else. -/
inductive ErrorKind where
  | displayHelp
  | displayHelpOnMissingArgumentOrSubcommand
  | invalidSubcommand
  | missingSubcommand
  | missingRequiredArgument
  | unknownArgument
deriving DecidableEq, Repr

/-- Result of `try_get_matches_from`: a parsed command, or a clap error
carrying its kind and its rendered text (`e.to_string()`). -/
inductive ParseResult where
  | ok (cmd : Command)
  | err (kind : ErrorKind) (message : String)
deriving DecidableEq, Repr

/-- The help scopes of the grammar: the whole bot command and each
subcommand that help can be requested for. -/
inductive HelpScope where
  | top
  | gm
  | party
  | registry
  | imp
deriving DecidableEq, Repr

/-- Rendered help text per scope, generated from the `about` strings and
argument declarations of `otcbot_cmd` in the style of clap. -/
def renderHelp : HelpScope → String
  | HelpScope.top =>
    "An awesome OTC Bot\n\nUsage: !otcbot <COMMAND>\n\nCommands:\n  gm        Greet me\n  party     Party time\n  registry  Manage Container Registry\n  help      Print this message or the help of the given subcommand(s)\n\nOptions:\n  -h, --help  Print help\n"
  | HelpScope.gm =>
    "Greet me\n\nUsage: !otcbot gm\n\nOptions:\n  -h, --help  Print help\n"
  | HelpScope.party =>
    "Party time\n\nUsage: !otcbot party\n\nOptions:\n  -h, --help  Print help\n"
  | HelpScope.registry =>
    "Manage Container Registry\n\nUsage: !otcbot registry <COMMAND>\n\nCommands:\n  import  Import image into registry\n  help    Print this message or the help of the given subcommand(s)\n\nOptions:\n  -h, --help  Print help\n"
  | HelpScope.imp =>
    "Import image into registry\n\nUsage: !otcbot registry import <IMAGE> <TAG>\n\nArguments:\n  <IMAGE>  Image name\n  <TAG>    Image version\n\nOptions:\n  -h, --help  Print help\n"

/-- `otcbot_cmd().render_long_help().to_string()`: the full rendered help
of the whole grammar, sent by the router on every non-help parse error. -/
def renderLongHelp : String := renderHelp HelpScope.top

/-- clap error text for an unrecognized subcommand. -/
def msgUnrecognized : String := "error: unrecognized subcommand"

/-- clap error text for a required subcommand that was not provided. -/
def msgMissingSubcommand : String :=
  "error: !otcbot requires a subcommand but one was not provided"

/-- clap error text when both required positional arguments are missing. -/
def msgMissingImageTag : String :=
  "error: the following required arguments were not provided: <IMAGE> <TAG>"

/-- clap error text when the required TAG argument is missing. -/
def msgMissingTag : String :=
  "error: the following required arguments were not provided: <TAG>"

/-- clap error text for an unexpected extra argument. -/
def msgUnexpectedArgument : String := "error: unexpected argument"

/-- Parsing of the auto-generated `help` subcommand at top level: no path
shows the top help, a path naming a known subcommand chain shows the help
of that scope, anything else is an invalid subcommand. -/
def parseHelpPath : List String → ParseResult
  | [] => ParseResult.err ErrorKind.displayHelp (renderHelp HelpScope.top)
  | ["gm"] => ParseResult.err ErrorKind.displayHelp (renderHelp HelpScope.gm)
  | ["party"] => ParseResult.err ErrorKind.displayHelp (renderHelp HelpScope.party)
  | ["registry"] => ParseResult.err ErrorKind.displayHelp (renderHelp HelpScope.registry)
  | ["registry", "import"] => ParseResult.err ErrorKind.displayHelp (renderHelp HelpScope.imp)
  | _ => ParseResult.err ErrorKind.invalidSubcommand msgUnrecognized

/-- Parsing of `registry import <IMAGE> <TAG>`: two required positional
arguments; `-h`/`--help` shows the import help; values may not look like
flags; extra values are unexpected arguments. -/
def parseImport : List String → ParseResult
  | [] => ParseResult.err ErrorKind.missingRequiredArgument msgMissingImageTag
  | w :: rest =>
    if w = "-h" || w = "--help" then
      ParseResult.err ErrorKind.displayHelp (renderHelp HelpScope.imp)
    else if strStartsWith w "-" then
      ParseResult.err ErrorKind.unknownArgument msgUnexpectedArgument
    else
      match rest with
      | [] => ParseResult.err ErrorKind.missingRequiredArgument msgMissingTag
      | [t] =>
        if t = "-h" || t = "--help" then
          ParseResult.err ErrorKind.displayHelp (renderHelp HelpScope.imp)
        else if strStartsWith t "-" then
          ParseResult.err ErrorKind.unknownArgument msgUnexpectedArgument
        else
          ParseResult.ok (Command.registryImport w t)
      | _ => ParseResult.err ErrorKind.unknownArgument msgUnexpectedArgument

/-- Parsing below the `registry` subcommand: `subcommand_required(true)`
together with `arg_required_else_help(true)`, subcommand `import`, and the
auto-generated `help` subcommand and help flags. -/
def parseRegistry : List String → ParseResult
  | [] =>
    ParseResult.err ErrorKind.displayHelpOnMissingArgumentOrSubcommand
      (renderHelp HelpScope.registry)
  | w :: rest =>
    if w = "-h" || w = "--help" then
      ParseResult.err ErrorKind.displayHelp (renderHelp HelpScope.registry)
    else if w = "help" then
      match rest with
      | [] => ParseResult.err ErrorKind.displayHelp (renderHelp HelpScope.registry)
      | ["import"] => ParseResult.err ErrorKind.displayHelp (renderHelp HelpScope.imp)
      | _ => ParseResult.err ErrorKind.invalidSubcommand msgUnrecognized
    else if w = "import" then parseImport rest
    else ParseResult.err ErrorKind.invalidSubcommand msgUnrecognized

/-- Parsing of the top-level argument list (after the binary name):
`subcommand_required(true)` with subcommands `gm`, `party`, `registry`,
the auto-generated `help` subcommand and the help flags. -/
def parseTop : List String → ParseResult
  | [] => ParseResult.err ErrorKind.missingSubcommand msgMissingSubcommand
  | w :: rest =>
    if w = "-h" || w = "--help" then
      ParseResult.err ErrorKind.displayHelp (renderHelp HelpScope.top)
    else if w = "help" then parseHelpPath rest
    else if w = "gm" then
      match rest with
      | [] => ParseResult.ok Command.gm
      | _ => ParseResult.err ErrorKind.unknownArgument msgUnexpectedArgument
    else if w = "party" then
      match rest with
      | [] => ParseResult.ok Command.party
      | _ => ParseResult.err ErrorKind.unknownArgument msgUnexpectedArgument
    else if w = "registry" then parseRegistry rest
    else ParseResult.err ErrorKind.invalidSubcommand msgUnrecognized

/-- `otcbot_cmd().try_get_matches_from(tokens)`: the first token is the
binary name and is skipped; the remaining tokens are parsed against the
grammar. -/
def otcbotCmdParse : List String → ParseResult
  | [] => ParseResult.err ErrorKind.missingSubcommand msgMissingSubcommand
  | _bin :: rest => parseTop rest

/-! ### The registry import action (`otcbot_registry`) -/

/-- The `import` arm of `otcbot_registry` in main.rs.  Looks the image key
up in the configured map; when present it acknowledges, signals typing,
builds the transcript, invokes skopeo through the executor, appends the
captured stdout (on success) or stderr (on failure) after decoding it with
`String::from_utf8(..).unwrap()`, sends the transcript as markdown and
stops typing.  `expect`/`unwrap` panics are reified in the `Outcome`.
When the key is absent a single plain message reports that the image is
not configured. -/
def otcbot_registry (images : ImageMap) (exec : Executor)
    (image_key image_tag : String) : List Effect × Outcome :=
  match images.lookup image_key with
  | some image =>
    let ack := Effect.sendPlain
      ("Got it. Importing " ++ image.upstream ++ ":" ++ image_tag ++ " to "
        ++ image.downstream ++ ":" ++ image_tag ++ " ...")
    let fromRef := "docker://" ++ image.upstream ++ ":" ++ image_tag
    let toRef := "docker://" ++ image.downstream ++ ":" ++ image_tag
    let command_args := ["copy", fromRef, toRef, "-a"]
    let log0 := "```\notcbot$> skopeo" ++ " "
      ++ String.intercalate " " command_args ++ "\n"
    let pre := [ack, Effect.typing true,
      Effect.runProcess "/usr/local/bin/skopeo" command_args]
    match exec command_args with
    | none => (pre, Outcome.panicked "Skopeo command failed to start")
    | some command_result =>
      let stream :=
        if command_result.success then command_result.stdout
        else command_result.stderr
      match utf8String stream with
      | none => (pre, Outcome.panicked "invalid utf-8 sequence")
      | some s =>
        let log := log0 ++ "\n" ++ s ++ "\n```"
        (pre ++ [Effect.sendMarkdown log, Effect.typing false], Outcome.normal)
  | none =>
    ([Effect.sendPlain ("Image " ++ image_key ++ " is not configured")],
      Outcome.normal)

/-! ### The message router (`on_room_message`) -/

/-- The fixed celebratory message of the `party` subcommand. -/
def partyText : String := "🎉🎊🥳 let\x27s PARTY!! 🥳🎊🎉"

/-- The body of `on_room_message` in main.rs, for a plain-text message in
a joined room (non-text messages and rooms the bot is not in return early
with no effects).  If the body starts with the prefix `!otcbot`, the body
is split on single space characters (Rust `split(" ")`) and parsed; the
resulting command is dispatched, a `displayHelp` error is answered with
its own rendered text, and every other error with the full long help.
If the body is non-empty a read receipt follows — unless the dispatched
handler panicked, in which case the panic propagates first. -/
def on_room_message (images : ImageMap) (exec : Executor)
    (sender body : String) : List Effect × Outcome :=
  let step : List Effect × Outcome :=
    if strStartsWith body "!otcbot" then
      let words := splitWords body
      let res : List Effect × Outcome :=
        match otcbotCmdParse words with
        | ParseResult.ok Command.gm =>
          ([Effect.sendPlain ("Hey " ++ sender)], Outcome.normal)
        | ParseResult.ok Command.party =>
          ([Effect.sendPlain partyText], Outcome.normal)
        | ParseResult.ok (Command.registryImport img tag) =>
          otcbot_registry images exec img tag
        | ParseResult.err ErrorKind.displayHelp msg =>
          ([Effect.sendPlain msg], Outcome.normal)
        | ParseResult.err _ _ =>
          ([Effect.sendPlain renderLongHelp], Outcome.normal)
      (Effect.parseInvoked words :: res.1, res.2)
    else ([], Outcome.normal)
  match step.2 with
  | Outcome.normal =>
    (step.1 ++ (if body.length > 0 then [Effect.readReceipt] else []),
      Outcome.normal)
  | Outcome.panicked m => (step.1, Outcome.panicked m)

/-! ### Effect-trace observations -/

/-- The texts of the plain messages in a trace, in order. -/
def plainSends : List Effect → List String
  | [] => []
  | Effect.sendPlain s :: es => s :: plainSends es
  | _ :: es => plainSends es

/-- The external-process invocations in a trace, in order. -/
def runEffects : List Effect → List (String × List String)
  | [] => []
  | Effect.runProcess exe args :: es => (exe, args) :: runEffects es
  | _ :: es => runEffects es

/-- Whether a trace contains a markdown (transcript) message. -/
def hasMarkdownSend : List Effect → Bool
  | [] => false
  | Effect.sendMarkdown _ :: _ => true
  | _ :: es => hasMarkdownSend es

/-- Whether a trace contains an invocation of the command grammar. -/
def hasParseInvoked : List Effect → Bool
  | [] => false
  | Effect.parseInvoked _ :: _ => true
  | _ :: es => hasParseInvoked es

/-! ### The invite auto-join retry loop (`on_stripped_state_member`)

For an invitation addressed to the bot itself, the handler spawns a task:
starting from delay 2, it calls `accept_invitation`; on failure it prints
a diagnostic naming the room, the error and the current delay, sleeps for
that delay, doubles the delay, and gives up (`break`) once the doubled
delay exceeds 3600.  The success line `println!("Successfully joined..")`
sits after the `while let` loop, so it runs on both exits of the loop.

The trace generator below takes the outcome of the i-th
`accept_invitation` call as an oracle (`none` means success, `some err`
the failed attempt with its error text). -/

/-- One observable event of the retry loop. -/
inductive JoinEvent where
  | attempt (idx : Nat)
  | retryDiag (roomId err : String) (delay : Nat)
  | sleep (delay : Nat)
  | abandonDiag (roomId err : String)
  | successDiag (roomId : String)
deriving DecidableEq, Repr

/-- The loop body, with an explicit fuel parameter to make the recursion
structural.  The fuel is a bound on loop iterations only: starting from
delay 2 the loop runs at most 11 iterations (the delay doubles and the
loop stops once the doubled delay passes 3600), so any fuel of at least
12 yields the full trace. -/
def joinLoopAux (tryJoin : Nat → Option String) (roomId : String) :
    Nat → Nat → Nat → List JoinEvent
  | 0, _, _ => []
  | fuel + 1, i, delay =>
    JoinEvent.attempt i ::
    match tryJoin i with
    | none => [JoinEvent.successDiag roomId]
    | some e =>
      JoinEvent.retryDiag roomId e delay ::
      JoinEvent.sleep delay ::
      (if 3600 < delay * 2 then
        [JoinEvent.abandonDiag roomId e, JoinEvent.successDiag roomId]
      else
        joinLoopAux tryJoin roomId fuel (i + 1) (delay * 2))

/-- The full trace of the spawned retry loop: first attempt at index 0
with initial delay 2.  Fuel 4000 strictly exceeds the maximal number of
iterations possible from delay 2. -/
def joinRetryTrace (tryJoin : Nat → Option String) (roomId : String) :
    List JoinEvent :=
  joinLoopAux tryJoin roomId 4000 0 2

/-- The delays announced in the per-failure diagnostics (each equals the
duration then slept), in order. -/
def retryDelays : List JoinEvent → List Nat
  | [] => []
  | JoinEvent.retryDiag _ _ d :: es => d :: retryDelays es
  | _ :: es => retryDelays es

/-- Does the list start at `d` and double at every step? -/
def doublingFrom : Nat → List Nat → Bool
  | _, [] => true
  | d, x :: xs => x = d && doublingFrom (d * 2) xs

/-- No join attempt occurs in the list. -/
def attemptFree : List JoinEvent → Bool
  | [] => true
  | JoinEvent.attempt _ :: _ => false
  | _ :: es => attemptFree es

/-- After the first abandonment diagnostic no further join attempt
occurs. -/
def noAttemptAfterAbandon : List JoinEvent → Bool
  | [] => true
  | JoinEvent.abandonDiag _ _ :: es => attemptFree es
  | _ :: es => noAttemptAfterAbandon es

/-- Does the trace contain the terminal abandonment diagnostic? -/
def hasAbandon : List JoinEvent → Bool
  | [] => false
  | JoinEvent.abandonDiag _ _ :: _ => true
  | _ :: es => hasAbandon es

/-- Does the trace contain the success diagnostic? -/
def hasSuccess : List JoinEvent → Bool
  | [] => false
  | JoinEvent.successDiag _ :: _ => true
  | _ :: es => hasSuccess es

end Otcbot


namespace Otcbot

/-! ### Helper lemmas -/

/-- Every rendered help text is non-empty. -/
theorem renderHelp_ne_empty (sc : HelpScope) : renderHelp sc ≠ "" := by
  cases sc <;> decide

/-- Every error of `parseHelpPath` carries a non-empty message. -/
theorem parseHelpPath_err_ne (ts : List String) (k : ErrorKind) (m : String)
    (h : parseHelpPath ts = ParseResult.err k m) : m ≠ "" := by
  rw [parseHelpPath.eq_def] at h
  repeat' split at h
  all_goals injection h with hk hm
  all_goals subst hm
  all_goals decide

/-- Every error of `parseImport` carries a non-empty message. -/
theorem parseImport_err_ne (ts : List String) (k : ErrorKind) (m : String)
    (h : parseImport ts = ParseResult.err k m) : m ≠ "" := by
  rw [parseImport.eq_def] at h
  repeat' split at h
  all_goals first
    | (injection h with hk hm; subst hm; decide)
    | injection h

/-- Every error of `parseRegistry` carries a non-empty message. -/
theorem parseRegistry_err_ne (ts : List String) (k : ErrorKind) (m : String)
    (h : parseRegistry ts = ParseResult.err k m) : m ≠ "" := by
  rw [parseRegistry.eq_def] at h
  repeat' split at h
  all_goals first
    | exact parseImport_err_ne _ _ _ h
    | (injection h with hk hm; subst hm; decide)

/-- Every error of `parseTop` carries a non-empty message. -/
theorem parseTop_err_ne (ts : List String) (k : ErrorKind) (m : String)
    (h : parseTop ts = ParseResult.err k m) : m ≠ "" := by
  rw [parseTop.eq_def] at h
  repeat' split at h
  all_goals first
    | exact parseHelpPath_err_ne _ _ _ h
    | exact parseRegistry_err_ne _ _ _ h
    | (injection h with hk hm; subst hm; decide)
    | injection h

/-- Every error of the whole grammar carries a non-empty message. -/
theorem otcbotCmdParse_err_ne (ts : List String) (k : ErrorKind) (m : String)
    (h : otcbotCmdParse ts = ParseResult.err k m) : m ≠ "" := by
  rw [otcbotCmdParse.eq_def] at h
  split at h
  · injection h with hk hm; subst hm; decide
  · exact parseTop_err_ne _ _ _ h

/-- The retry delays of the loop double starting from the delay the loop
was entered with. -/
theorem joinLoopAux_doubling (tryJoin : Nat → Option String) (roomId : String) :
    ∀ fuel i delay,
      doublingFrom delay (retryDelays (joinLoopAux tryJoin roomId fuel i delay)) = true := by
  intro fuel
  induction fuel with
  | zero => intro i delay; rfl
  | succ n ih =>
    intro i delay
    simp only [joinLoopAux]
    cases tryJoin i with
    | none => simp [retryDelays, doublingFrom]
    | some e =>
      by_cases hd : 3600 < delay * 2
      · simp [retryDelays, doublingFrom, hd]
      · simp only [retryDelays, hd, if_neg, doublingFrom]
        simp [ih]

/-- A doubling chain of naturals is non-decreasing. -/
theorem doublingFrom_chain :
    ∀ (l : List Nat) (d : Nat), doublingFrom d l = true → l.Chain' (· ≤ ·) := by
  intro l
  induction l with
  | nil => intro d _; exact List.chain'_nil
  | cons x xs ih =>
    intro d h
    simp only [doublingFrom, Bool.and_eq_true, decide_eq_true_eq] at h
    obtain ⟨rfl, h2⟩ := h
    cases xs with
    | nil => simp
    | cons z zs =>
      have hz : z = x * 2 := by
        simp only [doublingFrom, Bool.and_eq_true, decide_eq_true_eq] at h2
        exact h2.1
      exact List.chain'_cons.mpr ⟨by omega, ih (x * 2) h2⟩

/-- Once the loop emits the abandonment diagnostic, no further join
attempt occurs in the trace. -/
theorem joinLoopAux_noAttempt (tryJoin : Nat → Option String) (roomId : String) :
    ∀ fuel i delay,
      noAttemptAfterAbandon (joinLoopAux tryJoin roomId fuel i delay) = true := by
  intro fuel
  induction fuel with
  | zero => intro i delay; rfl
  | succ n ih =>
    intro i delay
    simp only [joinLoopAux]
    cases tryJoin i with
    | none => rfl
    | some e =>
      by_cases hd : 3600 < delay * 2
      · simp [noAttemptAfterAbandon, attemptFree, hd]
      · simp only [hd, if_neg, noAttemptAfterAbandon]
        simp [ih]

/-- The loop abandons exactly when some announced retry delay, doubled,
exceeds the ceiling of 3600. -/
theorem joinLoopAux_abandon_iff (tryJoin : Nat → Option String) (roomId : String) :
    ∀ fuel i delay,
      hasAbandon (joinLoopAux tryJoin roomId fuel i delay)
      = (retryDelays (joinLoopAux tryJoin roomId fuel i delay)).any
          (fun d => decide (3600 < d * 2)) := by
  intro fuel
  induction fuel with
  | zero => intro i delay; rfl
  | succ n ih =>
    intro i delay
    simp only [joinLoopAux]
    cases tryJoin i with
    | none => rfl
    | some e =>
      by_cases hd : 3600 < delay * 2
      · simp [hasAbandon, retryDelays, hd]
      · simp only [hd, if_neg, hasAbandon, retryDelays]
        simp [ih, hd]

/-! ### The claims -/

/-- C5: in every invitation retry sequence the delay starts at 2 and is
doubled after each failed join attempt, hence the announced delays are
monotonically non-decreasing; and the sequence reaches the abandonment
diagnostic exactly when a doubled delay exceeds the 3600 ceiling, after
which no further join attempt is made. -/
theorem otcbot_C5 (tryJoin : Nat → Option String) (roomId : String) :
    doublingFrom 2 (retryDelays (joinRetryTrace tryJoin roomId)) = true
    ∧ (retryDelays (joinRetryTrace tryJoin roomId)).Chain' (· ≤ ·)
    ∧ noAttemptAfterAbandon (joinRetryTrace tryJoin roomId) = true
    ∧ hasAbandon (joinRetryTrace tryJoin roomId)
        = (retryDelays (joinRetryTrace tryJoin roomId)).any
            (fun d => decide (3600 < d * 2)) :=
  ⟨joinLoopAux_doubling tryJoin roomId 4000 0 2,
   doublingFrom_chain _ 2 (joinLoopAux_doubling tryJoin roomId 4000 0 2),
   joinLoopAux_noAttempt tryJoin roomId 4000 0 2,
   joinLoopAux_abandon_iff tryJoin roomId 4000 0 2⟩

/-- C6, evaluated at the failing input: when every `accept_invitation`
attempt fails, the retry sequence ends in abandonment, emits the
per-failure diagnostics with delays 2, 4, ..., 2048 and the terminal
abandonment diagnostic — and then ALSO emits the success diagnostic,
because the `println!("Successfully joined room ...")` of the source sits
after the `while let` loop and therefore runs on the `break` exit as
well.  The claim states that a sequence ending in Abandoned does not emit
the success diagnostic; the code emits it. -/
theorem otcbot_C6 :
    hasAbandon (joinRetryTrace (fun _ => some "e") "!room:example.org") = true
    ∧ hasSuccess (joinRetryTrace (fun _ => some "e") "!room:example.org") = true
    ∧ retryDelays (joinRetryTrace (fun _ => some "e") "!room:example.org")
        = [2, 4, 8, 16, 32, 64, 128, 256, 512, 1024, 2048] := by
  refine ⟨by decide, by decide, by decide⟩

/-- C1: for every configured image mapping entry `k → {upstream u,
downstream d}` and every tag `t`, the registry import action performs
exactly one external invocation, of `/usr/local/bin/skopeo` with the
argument list `["copy", "docker://u:t", "docker://d:t", "-a"]` — whatever
the executor then does (start failure, bad output, or success). -/
theorem otcbot_C1 (images : ImageMap) (exec : Executor) (k t u d : String)
    (hk : images.lookup k = some ⟨u, d⟩) :
    runEffects (otcbot_registry images exec k t).1
    = [("/usr/local/bin/skopeo",
        ["copy", "docker://" ++ u ++ ":" ++ t, "docker://" ++ d ++ ":" ++ t, "-a"])] := by
  unfold otcbot_registry
  rw [hk]
  cases hx : exec ["copy", "docker://" ++ u ++ ":" ++ t, "docker://" ++ d ++ ":" ++ t, "-a"] with
  | none => simp [hx, runEffects]
  | some out =>
    cases hs : utf8String (if out.success then out.stdout else out.stderr) with
    | none => simp [hx, hs, runEffects]
    | some str => simp [hx, hs, runEffects]

/-- C1 witness: for `foo → {upstream: "a/b", downstream: "c/d"}` and tag
`v1` the invocation is exactly
`["copy", "docker://a/b:v1", "docker://c/d:v1", "-a"]`. -/
theorem otcbot_C1_witness :
    runEffects (otcbot_registry [("foo", ⟨"a/b", "c/d"⟩)]
        (fun _ => some ⟨true, [], []⟩) "foo" "v1").1
    = [("/usr/local/bin/skopeo",
        ["copy", "docker://a/b:v1", "docker://c/d:v1", "-a"])] :=
  otcbot_C1 [("foo", ⟨"a/b", "c/d"⟩)] (fun _ => some ⟨true, [], []⟩)
    "foo" "v1" "a/b" "c/d" (by decide)

/-- C4: for every image key absent from the configured mapping and every
tag, the registry import action sends exactly one plain message stating
the image is not configured, performs zero external invocations, and
returns normally. -/
theorem otcbot_C4 (images : ImageMap) (exec : Executor) (k t : String)
    (hk : images.lookup k = none) :
    plainSends (otcbot_registry images exec k t).1
      = ["Image " ++ k ++ " is not configured"]
    ∧ runEffects (otcbot_registry images exec k t).1 = []
    ∧ (otcbot_registry images exec k t).2 = Outcome.normal := by
  unfold otcbot_registry
  rw [hk]
  exact ⟨rfl, rfl, rfl⟩

/-- C4 witness: the unconfigured key `foo` in an empty mapping. -/
theorem otcbot_C4_witness :
    plainSends (otcbot_registry [] (fun _ => none) "foo" "v1").1
      = ["Image foo is not configured"]
    ∧ runEffects (otcbot_registry [] (fun _ => none) "foo" "v1").1 = []
    ∧ (otcbot_registry [] (fun _ => none) "foo" "v1").2 = Outcome.normal :=
  otcbot_C4 [] (fun _ => none) "foo" "v1" (by decide)

/-- C9 counterexample: for the configured key `foo` and tag `v1`, when the
external executable cannot be started the handler does not report the
failed action — the only message sent is the acknowledgement that
precedes the invocation, no markdown report follows — and instead of a
normal (recovered) return the handler panics via
`expect("Skopeo command failed to start")`, refuting the claim that the
failure is reported and processing continues. -/
theorem otcbot_C9_counterexample :
    (otcbot_registry [("foo", ⟨"a/b", "c/d"⟩)] (fun _ => none) "foo" "v1").2
      = Outcome.panicked "Skopeo command failed to start"
    ∧ plainSends (otcbot_registry [("foo", ⟨"a/b", "c/d"⟩)]
        (fun _ => none) "foo" "v1").1
      = ["Got it. Importing a/b:v1 to c/d:v1 ..."]
    ∧ hasMarkdownSend (otcbot_registry [("foo", ⟨"a/b", "c/d"⟩)]
        (fun _ => none) "foo" "v1").1 = false :=
  ⟨rfl, by decide, rfl⟩

/-- C9 as amended: if the external copy executable cannot be started at
all, the registry import handler panics with message
"Skopeo command failed to start" right after the invocation attempt; the
only message sent for that command is the preceding acknowledgement and
no report of the failure is sent. -/
theorem otcbot_C9 (images : ImageMap) (exec : Executor) (k t u d : String)
    (hk : images.lookup k = some ⟨u, d⟩)
    (hx : exec ["copy", "docker://" ++ u ++ ":" ++ t,
        "docker://" ++ d ++ ":" ++ t, "-a"] = none) :
    otcbot_registry images exec k t
    = ([Effect.sendPlain ("Got it. Importing " ++ u ++ ":" ++ t ++ " to "
          ++ d ++ ":" ++ t ++ " ..."),
        Effect.typing true,
        Effect.runProcess "/usr/local/bin/skopeo"
          ["copy", "docker://" ++ u ++ ":" ++ t, "docker://" ++ d ++ ":" ++ t, "-a"]],
       Outcome.panicked "Skopeo command failed to start") := by
  unfold otcbot_registry
  rw [hk]
  simp [hx]

/-- C9 witness: the amended statement at a concrete configuration. -/
theorem otcbot_C9_witness :
    otcbot_registry [("img", ⟨"up/stream", "down/stream"⟩)]
        (fun _ => none) "img" "latest"
    = ([Effect.sendPlain "Got it. Importing up/stream:latest to down/stream:latest ...",
        Effect.typing true,
        Effect.runProcess "/usr/local/bin/skopeo"
          ["copy", "docker://up/stream:latest", "docker://down/stream:latest", "-a"]],
       Outcome.panicked "Skopeo command failed to start") :=
  otcbot_C9 [("img", ⟨"up/stream", "down/stream"⟩)] (fun _ => none)
    "img" "latest" "up/stream" "down/stream" (by decide) rfl

/-- C10: if the external executor starts and returns, and the stream
selected for the transcript (stdout on success, stderr on failure) is not
valid UTF-8, the handler panics at `String::from_utf8(..).unwrap()`
before sending the transcript, so no transcript message is sent; and a
transcript message is sent precisely when that stream is valid UTF-8. -/
theorem otcbot_C10 (images : ImageMap) (exec : Executor) (k t u d : String)
    (out : ProcessOutput)
    (hk : images.lookup k = some ⟨u, d⟩)
    (hx : exec ["copy", "docker://" ++ u ++ ":" ++ t,
        "docker://" ++ d ++ ":" ++ t, "-a"] = some out) :
    (utf8Decode (if out.success then out.stdout else out.stderr) = none →
      otcbot_registry images exec k t
      = ([Effect.sendPlain ("Got it. Importing " ++ u ++ ":" ++ t ++ " to "
            ++ d ++ ":" ++ t ++ " ..."),
          Effect.typing true,
          Effect.runProcess "/usr/local/bin/skopeo"
            ["copy", "docker://" ++ u ++ ":" ++ t, "docker://" ++ d ++ ":" ++ t, "-a"]],
         Outcome.panicked "invalid utf-8 sequence"))
    ∧ (hasMarkdownSend (otcbot_registry images exec k t).1 = true
        ↔ (utf8Decode (if out.success then out.stdout else out.stderr)).isSome = true) := by
  constructor
  · intro hdec
    unfold otcbot_registry
    rw [hk]
    simp [hx, utf8String, hdec]
  · unfold otcbot_registry
    rw [hk]
    cases hdec : utf8Decode (if out.success then out.stdout else out.stderr) with
    | none =>
      simp [hx, utf8String, hdec, hasMarkdownSend]
    | some cs =>
      simp [hx, utf8String, hdec, hasMarkdownSend]

/-- C10 witness: a successful run whose stdout is the invalid byte 0xFF
makes the handler panic and send no transcript. -/
theorem otcbot_C10_witness :
    otcbot_registry [("foo", ⟨"a/b", "c/d"⟩)]
        (fun _ => some ⟨true, [255], []⟩) "foo" "v1"
    = ([Effect.sendPlain "Got it. Importing a/b:v1 to c/d:v1 ...",
        Effect.typing true,
        Effect.runProcess "/usr/local/bin/skopeo"
          ["copy", "docker://a/b:v1", "docker://c/d:v1", "-a"]],
       Outcome.panicked "invalid utf-8 sequence") :=
  (otcbot_C10 [("foo", ⟨"a/b", "c/d"⟩)] (fun _ => some ⟨true, [255], []⟩)
    "foo" "v1" "a/b" "c/d" ⟨true, [255], []⟩ (by decide) rfl).1 (by decide)

/-- C2: the grammar maps `["!otcbot","gm"]` to the greet command,
`["!otcbot","party"]` to the party command and
`["!otcbot","registry","import","foo","v1"]` to the registry import of
`foo` at `v1`; the router answers the first with a personalized greeting
naming the sender, the second with the fixed celebratory message, and
dispatches the third to the registry import action. -/
theorem otcbot_C2 :
    otcbotCmdParse ["!otcbot", "gm"] = ParseResult.ok Command.gm
    ∧ otcbotCmdParse ["!otcbot", "party"] = ParseResult.ok Command.party
    ∧ otcbotCmdParse ["!otcbot", "registry", "import", "foo", "v1"]
        = ParseResult.ok (Command.registryImport "foo" "v1")
    ∧ (∀ (sender : String) (images : ImageMap) (exec : Executor),
        on_room_message images exec sender "!otcbot gm"
        = ([Effect.parseInvoked ["!otcbot", "gm"],
            Effect.sendPlain ("Hey " ++ sender), Effect.readReceipt],
           Outcome.normal))
    ∧ (∀ (sender : String) (images : ImageMap) (exec : Executor),
        on_room_message images exec sender "!otcbot party"
        = ([Effect.parseInvoked ["!otcbot", "party"],
            Effect.sendPlain partyText, Effect.readReceipt],
           Outcome.normal))
    ∧ (∀ (sender : String) (images : ImageMap) (exec : Executor),
        on_room_message images exec sender "!otcbot registry import foo v1"
        = ((Effect.parseInvoked ["!otcbot", "registry", "import", "foo", "v1"]
              :: (otcbot_registry images exec "foo" "v1").1)
            ++ (match (otcbot_registry images exec "foo" "v1").2 with
                | Outcome.normal => [Effect.readReceipt]
                | Outcome.panicked _ => []),
           (otcbot_registry images exec "foo" "v1").2)) := by
  refine ⟨rfl, rfl, rfl, fun sender images exec => rfl, fun sender images exec => rfl,
    fun sender images exec => ?_⟩
  have hsw : strStartsWith "!otcbot registry import foo v1" "!otcbot" = true := rfl
  have hw : splitWords "!otcbot registry import foo v1"
      = ["!otcbot", "registry", "import", "foo", "v1"] := rfl
  have hp : otcbotCmdParse ["!otcbot", "registry", "import", "foo", "v1"]
      = ParseResult.ok (Command.registryImport "foo" "v1") := rfl
  simp only [on_room_message, hsw, if_true, hw, hp]
  rcases ho : otcbot_registry images exec "foo" "v1" with ⟨effs, oc⟩
  cases oc <;> simp +decide [ho]

/-- C3: every parse failure carries a non-empty help text; a body that
parses to an error is answered by the router with exactly one plain help
message — the error text itself for an explicit help request
(`displayHelp`), the full rendered long help of the whole grammar for
every other failure; and in particular
`["!otcbot","registry","import","foo"]` (missing TAG) is a
missing-required-argument error with non-empty text. -/
theorem otcbot_C3 :
    (∀ (ts : List String) (k : ErrorKind) (m : String),
        otcbotCmdParse ts = ParseResult.err k m → m ≠ "")
    ∧ (∀ (images : ImageMap) (exec : Executor) (sender body : String)
        (k : ErrorKind) (m : String),
        strStartsWith body "!otcbot" = true →
        otcbotCmdParse (splitWords body) = ParseResult.err k m →
        (on_room_message images exec sender body).1
        = Effect.parseInvoked (splitWords body)
          :: Effect.sendPlain
              (if k = ErrorKind.displayHelp then m else renderLongHelp)
          :: (if body.length > 0 then [Effect.readReceipt] else []))
    ∧ otcbotCmdParse ["!otcbot", "help"]
        = ParseResult.err ErrorKind.displayHelp (renderHelp HelpScope.top)
    ∧ otcbotCmdParse ["!otcbot", "--help"]
        = ParseResult.err ErrorKind.displayHelp (renderHelp HelpScope.top)
    ∧ otcbotCmdParse ["!otcbot", "help", "registry"]
        = ParseResult.err ErrorKind.displayHelp (renderHelp HelpScope.registry)
    ∧ otcbotCmdParse ["!otcbot", "registry", "import", "foo"]
        = ParseResult.err ErrorKind.missingRequiredArgument msgMissingTag
    ∧ msgMissingTag ≠ "" ∧ renderLongHelp ≠ "" := by
  refine ⟨otcbotCmdParse_err_ne, ?_, rfl, rfl, rfl, rfl, by decide, by decide⟩
  intro images exec sender body k m hsw hp
  simp only [on_room_message, hsw, if_true, hp]
  cases k <;> simp

/-- C3 witness: the body missing its TAG argument is answered with the
full long help followed by the read receipt. -/
theorem otcbot_C3_witness :
    (on_room_message [] (fun _ => none) "u" "!otcbot registry import foo").1
    = Effect.parseInvoked ["!otcbot", "registry", "import", "foo"]
      :: Effect.sendPlain renderLongHelp :: [Effect.readReceipt] := by
  have h := otcbot_C3.2.1 [] (fun _ => none) "u" "!otcbot registry import foo"
    ErrorKind.missingRequiredArgument msgMissingTag (by decide) (by decide)
  simpa using h

/-- C7: a message body that does not start with the fixed prefix
`!otcbot` never reaches the command grammar: the router short-circuits
and no parse invocation occurs in its effect trace. -/
theorem otcbot_C7 (images : ImageMap) (exec : Executor) (sender body : String)
    (h : strStartsWith body "!otcbot" = false) :
    hasParseInvoked (on_room_message images exec sender body).1 = false := by
  simp only [on_room_message, h]
  by_cases hb : body.length > 0 <;> simp [hb, hasParseInvoked]

/-- C7 witness: the body "hello" is routed without invoking the
grammar. -/
theorem otcbot_C7_witness :
    hasParseInvoked (on_room_message [] (fun _ => none) "u" "hello").1 = false :=
  otcbot_C7 [] (fun _ => none) "u" "hello" (by decide)

/-- C8 counterexample: tokens separated by a run of two spaces, or by a
tab, do not parse to the same command as the single-space-separated body
with the same tokens — `"!otcbot  gm"` splits to `["!otcbot","","gm"]`
(an invalid-subcommand error answered with the long help) and
`"!otcbot\tgm"` stays one token, while `"!otcbot gm"` parses to the greet
command. -/
theorem otcbot_C8_counterexample :
    otcbotCmdParse (splitWords "!otcbot  gm")
      ≠ otcbotCmdParse (splitWords "!otcbot gm")
    ∧ otcbotCmdParse (splitWords "!otcbot\tgm")
      ≠ otcbotCmdParse (splitWords "!otcbot gm") :=
  ⟨by decide, by decide⟩

/-- C8 as amended: the router tokenizes the body by splitting on single
space characters (Rust `split(" ")`), not on general whitespace: the
token list passed to the grammar is exactly `splitWords body`, runs of
spaces produce empty tokens (`"!otcbot  gm"` yields an invalid
subcommand) and tabs are not separators, so bodies whose tokens are
separated by other whitespace may parse differently. -/
theorem otcbot_C8 (images : ImageMap) (exec : Executor) (sender body : String)
    (h : strStartsWith body "!otcbot" = true) :
    (on_room_message images exec sender body).1.head?
      = some (Effect.parseInvoked (splitWords body))
    ∧ splitWords "!otcbot  gm" = ["!otcbot", "", "gm"]
    ∧ otcbotCmdParse ["!otcbot", "", "gm"]
      = ParseResult.err ErrorKind.invalidSubcommand msgUnrecognized := by
  refine ⟨?_, by decide, by decide⟩
  simp only [on_room_message, h, if_true]
  split <;> simp

/-- C8 witness: the single-space body "!otcbot gm" is tokenized to
`["!otcbot","gm"]` and handed to the grammar. -/
theorem otcbot_C8_witness :
    (on_room_message [] (fun _ => none) "u" "!otcbot gm").1.head?
      = some (Effect.parseInvoked ["!otcbot", "gm"])
    ∧ splitWords "!otcbot  gm" = ["!otcbot", "", "gm"]
    ∧ otcbotCmdParse ["!otcbot", "", "gm"]
      = ParseResult.err ErrorKind.invalidSubcommand msgUnrecognized :=
  otcbot_C8 [] (fun _ => none) "u" "!otcbot gm" (by decide)

end Otcbot
